import Mathlib

/-!
Verification of the OpenRCT2-RideVehicleEditor plugin's view-model layer.

The definitions below are a shallow embedding of the TypeScript sources:
* `src/viewmodels/vehicleViewModel.ts` — the `VehicleViewModel` class, its
  stores, the `updateSelectionOrNull` helper and the `isMoving` helper;
* `src/ui/spinner.ts` — the `SpinnerComponent` controller;
* the legacy editor window (`VehicleEditorWindow`) with its clipboard
  (`copiedVehicleSettings`, `onClickCopy`, the paste button handler);
* `src/ui/sideWindow.ts` — the spacing label formatter.

Reactive `store`s become record fields of an explicit state type; each event
handler becomes a state-transition function.  Code living in repository files
that were not provided (`services/spacingEditor.ts`, `services/vehicleCopier.ts`,
`helpers/utilityHelpers.ts`) is either kept abstract as a function parameter or
modelled from the specification, as flagged in the doc comments.
-/

namespace RVE

/-- Entity status strings of the host API that the view model inspects
(`VehicleStatus` in the OpenRCT2 API). Only the constructors matched by
`isMoving` need to be distinguished; the rest are representative examples
of non-moving states. -/
inductive VehicleStatus where
  | arriving
  | crashing
  | departing
  | moving_to_end_of_station
  | travelling_boat
  | travelling_cable_lift
  | travelling_dodgems
  | travelling
  | waiting_for_passengers
  | waiting_to_depart
  | stopped
  | crashed
deriving DecidableEq, Repr

/-- Embedding of `isMoving` from `vehicleViewModel.ts` (lines 330-345):
the switch over the vehicle status. -/
def isMoving (status : VehicleStatus) : Bool :=
  match status with
  | .arriving => true
  | .crashing => true
  | .departing => true
  | .moving_to_end_of_station => true
  | .travelling_boat => true
  | .travelling_cable_lift => true
  | .travelling_dodgems => true
  | .travelling => true
  | _ => false

/-- The scalar data of a `Car` game entity that the view model reads.
Mirrors the fields accessed in `_updateVehicleInfo`, `_updateDynamicDataFromCar`
and `_select`: the colours object is flattened into its three channels. -/
structure Car where
  id : Nat
  ride : Nat
  rideObject : Nat
  vehicleObject : Nat
  numSeats : Nat
  mass : Nat
  poweredAcceleration : Nat
  poweredMaxSpeed : Nat
  trackProgress : Int
  x : Int
  y : Int
  z : Int
  colourBody : Nat
  colourTrim : Nat
  colourTertiary : Nat
  status : VehicleStatus
deriving DecidableEq, Repr

/-- A `RideVehicle` object: wraps the entity id; `_car()` fetches the car
entity from the map, which we embed as carrying the fetched data. -/
structure RideVehicle where
  _id : Nat
  car : Car
deriving DecidableEq, Repr

/-- A `RideType` object; the view model only compares `_id` with
`car.rideObject`. -/
structure RideType where
  _id : Nat
deriving DecidableEq, Repr

/-- A `RideTrain` object: `_vehicles()` returns the vehicles of the train and
`_at(i)` indexes into them. -/
structure RideTrain where
  vehicles : List RideVehicle
deriving DecidableEq, Repr

/-- A `ParkRide` object; the view model only uses its `_id` here. -/
structure ParkRide where
  _id : Nat
deriving DecidableEq, Repr

/-- A vehicle span `[startId, count]` (`services/vehicleSpan.ts` type
`VehicleSpan`), as used by `_modifyVehicle`. -/
def VehicleSpan : Type := Nat × Nat
deriving instance DecidableEq, Repr for VehicleSpan

/-- Embedding of `updateSelectionOrNull` (`vehicleViewModel.ts` lines 311-322):
given the previous content of a selection store and the replaced list, compute
the new selection.  `items[selectedIdx]` becomes a total `get?`-lookup that is
provably in range whenever the list is non-empty. -/
def updateSelectionOrNull {α : Type} (previous : Option (α × Nat)) (items : List α) :
    Option (α × Nat) :=
  if 0 < items.length then
    let selectedIdx : Nat :=
      match previous with
      | some p => if p.2 < items.length then p.2 else 0
      | none => 0
    (items.get? selectedIdx).map (fun item => (item, selectedIdx))
  else
    none

/-- The observable state of `VehicleViewModel`: every `store(...)` field of the
class becomes a record field, initialised exactly as in the class declaration
(lines 19-62 of `vehicleViewModel.ts`).  The `compute(...)` stores are derived
values and are embedded as functions of this state instead. -/
structure VMState where
  selectedRide : Option (ParkRide × Nat) := none
  selectedTrain : Option (RideTrain × Nat) := none
  selectedVehicle : Option (RideVehicle × Nat) := none
  rideTypes : List RideType := []
  rides : List ParkRide := []
  type : Option (RideType × Nat) := none
  variant : Nat := 0
  seats : Nat := 0
  mass : Nat := 0
  poweredAcceleration : Nat := 0
  poweredMaxSpeed : Nat := 0
  trackProgress : Int := 0
  spacing : Option Int := some 0
  x : Int := 0
  y : Int := 0
  z : Int := 0
  primaryColour : Nat := 0
  secondaryColour : Nat := 0
  tertiaryColour : Nat := 0
  isMovingField : Bool := false
  multiplierIndex : Nat := 0
  copyFilters : Nat := 0
  copyTargetOption : Nat := 0
  synchronizeTargets : Bool := false
  isOpen : Bool := false
deriving Repr

/-- The state of a freshly constructed `VehicleViewModel`: all store defaults.
Note in particular that `_spacing` is initialised to `store(0)`, i.e. `some 0`,
and `_isOpen` is initially `undefined`, i.e. `false`. -/
def initVMState : VMState := {}

/-- The distance measurement of `getSpacingToPrecedingVehicle` relative to one
preceding vehicle: `none` when the preceding vehicle's position cannot be
resolved against the current car.  The implementation lives in
`src/services/spacingEditor.ts`, which is not among the provided sources, so it
is kept abstract as a parameter of the embedding. -/
def DistanceFn : Type := RideVehicle → Car → Option Int

/-- Modelled from the spec: `getSpacingToPrecedingVehicle` is implemented in
`src/services/spacingEditor.ts`, which is not among the provided sources.
Per the spec, spacing is computed relative to the immediately preceding
vehicle in the same train, and "if no preceding vehicle exists or its position
can't be resolved, the spacing observable must report unavailable" — embedded
as returning `none` when the vehicle is the first of its train, when the
preceding vehicle does not exist, or when the distance cannot be resolved. -/
def getSpacingToPrecedingVehicle (distance : DistanceFn) (train : RideTrain)
    (car : Car) (index : Nat) : Option Int :=
  if index = 0 then
    none
  else
    match train.vehicles.get? (index - 1) with
    | none => none
    | some prev => distance prev car

/-- Embedding of `_updateDynamicDataFromCar` (`vehicleViewModel.ts` lines
223-239): pulls variant, mass, track progress, position, and — when a train is
selected — the moving state of its first car and the spacing to the preceding
vehicle.  The source indexes `train[0]._at(0)._car()` unconditionally; trains
produced by the host always carry at least one vehicle, and the embedding
leaves the moving/spacing fields untouched on the unreachable empty-train
corner. -/
def updateDynamicDataFromCar (distance : DistanceFn) (s : VMState) (car : Car)
    (index : Nat) : VMState :=
  let s1 := { s with
    variant := car.vehicleObject
    mass := car.mass
    trackProgress := car.trackProgress
    x := car.x
    y := car.y
    z := car.z }
  match s.selectedTrain with
  | none => s1
  | some t =>
    match t.1.vehicles.head? with
    | none => s1
    | some headVehicle =>
      { s1 with
        isMovingField := isMoving headVehicle.car.status
        spacing := getSpacingToPrecedingVehicle distance t.1 car index }

/-- Embedding of `_updateVehicleInfo` (`vehicleViewModel.ts` lines 204-218):
pulls the identity/appearance fields (type, seats, powered acceleration,
powered max speed, colours) and then the dynamic fields. -/
def updateVehicleInfo (distance : DistanceFn) (s : VMState)
    (vehicle : RideVehicle) (index : Nat) : VMState :=
  let car := vehicle.car
  let typeIdx := s.rideTypes.findIdx? (fun t => t._id == car.rideObject)
  let s1 := { s with
    type := typeIdx.bind (fun i => (s.rideTypes.get? i).map (fun t => (t, i)))
    seats := car.numSeats
    poweredAcceleration := car.poweredAcceleration
    poweredMaxSpeed := car.poweredMaxSpeed
    primaryColour := car.colourBody
    secondaryColour := car.colourTrim
    tertiaryColour := car.colourTertiary }
  updateDynamicDataFromCar distance s1 car index

/-- Embedding of `_onGameTickExecuted` (`vehicleViewModel.ts` lines 244-251):
on every game tick, if a vehicle is selected, refresh the dynamic data from
its car. -/
def onGameTickExecuted (distance : DistanceFn) (s : VMState) : VMState :=
  match s.selectedVehicle with
  | none => s
  | some v => updateDynamicDataFromCar distance s v.1.car v.2

/-- Embedding of the `refreshVehicle.push` handler registered in the
constructor (`vehicleViewModel.ts` lines 77-90): ignored while the window is
closed; otherwise, if the refreshed id matches the selected vehicle, the full
vehicle info is re-pulled. -/
def onRefreshVehicle (distance : DistanceFn) (s : VMState) (id : Nat) : VMState :=
  if !s.isOpen then
    s
  else
    match s.selectedVehicle with
    | none => s
    | some v => if v.1._id = id then updateVehicleInfo distance s v.1 v.2 else s

/-- Embedding of a `_selectedVehicle.set(v)` together with the subscription
registered in the constructor (`vehicleViewModel.ts` lines 70-76): the store
takes the new value, and the handler re-pulls the vehicle info only when the
new value is non-null and the window is open. -/
def selectVehicle (distance : DistanceFn) (s : VMState)
    (v : Option (RideVehicle × Nat)) : VMState :=
  let s1 := { s with selectedVehicle := v }
  match v with
  | none => s1
  | some vehicle =>
    if s1.isOpen then updateVehicleInfo distance s1 vehicle.1 vehicle.2 else s1

/-- The signature of `getTargets` from `services/vehicleCopier.ts` (not among
the provided sources): copy-target mode, selected ride, selected train and
selected vehicle to an ordered list of vehicle spans.  Kept abstract as a
parameter of the embedding. -/
def GetTargetsFn : Type :=
  Nat → Option (ParkRide × Nat) → Option (RideTrain × Nat) →
    Option (RideVehicle × Nat) → List VehicleSpan

/-- Embedding of the `_copyTargets` computed store (`vehicleViewModel.ts` line
56): `getTargets` evaluated on the current copy-target mode and the current
ride/train/vehicle selection. -/
def copyTargets (getTargets : GetTargetsFn) (s : VMState) : List VehicleSpan :=
  getTargets s.copyTargetOption s.selectedRide s.selectedTrain s.selectedVehicle

/-- Embedding of `_modifyVehicle` (`vehicleViewModel.ts` lines 168-186).  The
result records, besides the (unchanged) view-model state, the list of
`(spans, value)` argument pairs the action callback is invoked with, and
whether the debug-log line for a missing selection was emitted. -/
def modifyVehicle {T : Type} (getTargets : GetTargetsFn) (s : VMState)
    (value : T) : VMState × List (List VehicleSpan × T) × Bool :=
  match s.selectedVehicle with
  | some vehicle =>
    if s.synchronizeTargets then
      (s, [(copyTargets getTargets s, value)], false)
    else
      (s, [([(vehicle.1._id, 1)], value)], false)
  | none => (s, [], true)

/-- JavaScript bitwise operators work on 32-bit integers; the filter masks of
the plugin are small non-negative numbers, so `enabledFilters & ~filter`
equals the complement-within-32-bits conjunction. -/
def jsNotMask : Nat := 2 ^ 32 - 1

/-- Embedding of `_setFilter` (`vehicleViewModel.ts` lines 191-199) acting on
the `_copyFilters` mask: `enabledFilters | filter` when toggled on,
`enabledFilters & ~filter` when toggled off. -/
def setFilterMask (enabledFilters filter : Nat) (toggle : Bool) : Nat :=
  if toggle then
    enabledFilters ||| filter
  else
    enabledFilters &&& (filter ^^^ jsNotMask)

/-- The `_setFilter` method as a transition on the view-model state. -/
def setFilter (s : VMState) (filter : Nat) (toggle : Bool) : VMState :=
  { s with copyFilters := setFilterMask s.copyFilters filter toggle }

/-- The host context's subscription registry, as far as the view model can
observe it: `context.subscribe` hands out fresh disposable handles, and
`dispose()` removes a handle.  Live handles are tracked separately for the
`action.execute` and `interval.tick` event types. -/
structure SubscriptionEnv where
  nextId : Nat := 0
  liveAction : List Nat := []
  liveTick : List Nat := []
deriving DecidableEq, Repr

/-- The private `_onPlayerAction` / `_onGameTick` handle fields of
`VehicleViewModel` (lines 61-62), `none` for `undefined`. -/
structure SubscriptionState where
  onPlayerAction : Option Nat := none
  onGameTick : Option Nat := none
deriving DecidableEq, Repr

/-- Host call `context.subscribe` for `action.execute`: a fresh live handle. -/
def subscribeAction (e : SubscriptionEnv) : Nat × SubscriptionEnv :=
  (e.nextId, { e with nextId := e.nextId + 1, liveAction := e.nextId :: e.liveAction })

/-- Host call `context.subscribe` for `interval.tick`: a fresh live handle. -/
def subscribeTick (e : SubscriptionEnv) : Nat × SubscriptionEnv :=
  (e.nextId, { e with nextId := e.nextId + 1, liveTick := e.nextId :: e.liveTick })

/-- Host call `dispose()` on an `action.execute` subscription handle. -/
def disposeAction (h : Nat) (e : SubscriptionEnv) : SubscriptionEnv :=
  { e with liveAction := e.liveAction.erase h }

/-- Host call `dispose()` on an `interval.tick` subscription handle. -/
def disposeTick (h : Nat) (e : SubscriptionEnv) : SubscriptionEnv :=
  { e with liveTick := e.liveTick.erase h }

/-- The subscription part of `_open` (`vehicleViewModel.ts` lines 103-104):
`this._onPlayerAction ||= context.subscribe(...)` subscribes only when the
handle field is still unset, and likewise for the game-tick handle. -/
def openSubscriptions (s : SubscriptionState) (e : SubscriptionEnv) :
    SubscriptionState × SubscriptionEnv :=
  let pa := match s.onPlayerAction with
    | some h => (h, e)
    | none => subscribeAction e
  let gt := match s.onGameTick with
    | some h => (h, pa.2)
    | none => subscribeTick pa.2
  (⟨some pa.1, some gt.1⟩, gt.2)

/-- The subscription part of `_close` (`vehicleViewModel.ts` lines 114-123):
dispose both handles when present, then clear both fields. -/
def closeSubscriptions (s : SubscriptionState) (e : SubscriptionEnv) :
    SubscriptionState × SubscriptionEnv :=
  let e1 := match s.onPlayerAction with
    | some h => disposeAction h e
    | none => e
  let e2 := match s.onGameTick with
    | some h => disposeTick h e1
    | none => e1
  (⟨none, none⟩, e2)

/-- A window lifecycle event delivered to the view model. -/
inductive WindowOp where
  | openWin
  | closeWin
deriving DecidableEq, Repr

/-- One lifecycle event applied to the handle fields and the registry. -/
def applyWindowOp (p : SubscriptionState × SubscriptionEnv) (op : WindowOp) :
    SubscriptionState × SubscriptionEnv :=
  match op with
  | .openWin => openSubscriptions p.1 p.2
  | .closeWin => closeSubscriptions p.1 p.2

/-- Run a sequence of `_open`/`_close` calls from the freshly constructed
view model against an empty subscription registry. -/
def runWindowOps (ops : List WindowOp) : SubscriptionState × SubscriptionEnv :=
  ops.foldl applyWindowOp (⟨none, none⟩, {})

/-- Each handle field mirrors exactly the live subscriptions of its event
type: the registry holds precisely the handle stored in the field, if any. -/
def SubInvariant (s : SubscriptionState) (e : SubscriptionEnv) : Prop :=
  e.liveAction = s.onPlayerAction.elim [] (fun h => [h])
  ∧ e.liveTick = s.onGameTick.elim [] (fun h => [h])

/-- Embedding of the reset part of `_close` (`vehicleViewModel.ts` lines
110-128) on the observable state: the window flag is lowered and only the
multiplier index and the synchronize flag are reset. -/
def closeModel (s : VMState) : VMState :=
  { s with isOpen := false, multiplierIndex := 0, synchronizeTargets := false }

/-- The identity/appearance observable fields agree between two states:
type, seats, powered acceleration, powered max speed and the three colour
channels.  These are the fields written only by `_updateVehicleInfo`. -/
def idFieldsEq (a b : VMState) : Prop :=
  a.type = b.type
  ∧ a.seats = b.seats
  ∧ a.poweredAcceleration = b.poweredAcceleration
  ∧ a.poweredMaxSpeed = b.poweredMaxSpeed
  ∧ a.primaryColour = b.primaryColour
  ∧ a.secondaryColour = b.secondaryColour
  ∧ a.tertiaryColour = b.tertiaryColour

/-- All mirrored observable fields agree between two states: the identity
fields together with the dynamic fields (variant, mass, track progress,
spacing, position, colours). -/
def mirrorFieldsEq (a b : VMState) : Prop :=
  idFieldsEq a b
  ∧ a.variant = b.variant
  ∧ a.mass = b.mass
  ∧ a.trackProgress = b.trackProgress
  ∧ a.spacing = b.spacing
  ∧ a.x = b.x
  ∧ a.y = b.y
  ∧ a.z = b.z

/-- Embedding of the spacing spinner's `format` callback
(`sideWindow.ts` lines 197-200): a `null` spacing renders as the
non-numeric label, a number renders as its digits. -/
def spacingFormat (spacing : Option Int) : String :=
  match spacing with
  | none => "Too far away"
  | some value => toString value

/-- The legacy editor window's clipboard state (`VehicleEditorWindow`):
the module-level `copiedVehicleSettings` variable, the pressed state of the
copy button and the disabled state of the paste button.  The settings type
`VehicleSettings` is kept abstract as a type parameter. -/
structure WinState (α : Type) where
  copiedVehicleSettings : Option α
  copyPressed : Bool
  pasteDisabled : Bool
deriving DecidableEq, Repr

/-- The initial clipboard state: `copiedVehicleSettings` starts as `null`
(line 42), the copy button is created with
`isPressed: (copiedVehicleSettings !== null)` and the paste button with
`isDisabled: (copiedVehicleSettings === null)`. -/
def initWinState (α : Type) : WinState α :=
  { copiedVehicleSettings := none, copyPressed := false, pasteDisabled := true }

/-- Embedding of `VehicleEditorWindow.onClickCopy` (lines 671-691): when the
copy button is pressed, unpress it and clear the clipboard; otherwise, if the
`onCopyVehicle` callback is attached, store its result and press the button
only when the result is non-null; finally the paste button's disabled state
mirrors the (un)pressed copy button. -/
def onClickCopy {α : Type} (s : WinState α) (onCopyVehicle : Option (Option α)) :
    WinState α :=
  if s.copyPressed then
    { copiedVehicleSettings := none, copyPressed := false, pasteDisabled := true }
  else
    match onCopyVehicle with
    | none => { s with pasteDisabled := !s.copyPressed }
    | some result =>
      { copiedVehicleSettings := result
        copyPressed := result.isSome
        pasteDisabled := !result.isSome }

/-- Embedding of the paste button's `onClick` (lines 444-451): the
`onPasteVehicle` callback is invoked, with the clipboard content, only when
the clipboard is non-empty and the callback is attached; the second component
lists the invocations. -/
def onClickPaste {α : Type} (s : WinState α) (hasPasteHandler : Bool) :
    WinState α × List α :=
  match s.copiedVehicleSettings with
  | some settings => if hasPasteHandler then (s, [settings]) else (s, [])
  | none => (s, [])

/-- The `WrapMode` type of `spinner.ts`: wrap around or clamp to the boundaries. -/
inductive WrapMode where
  | wrap
  | clamp
deriving DecidableEq, Repr

/-- The mutable value state of a `SpinnerComponent`: `_value` starts at 0 and
`_isActive` is initially unset. -/
structure SpinnerState where
  value : Int := 0
  isActive : Bool := false
deriving DecidableEq, Repr

/-- Modelled from the spec: `clamp` is implemented in
`helpers/utilityHelpers.ts`, which is not among the provided sources; per the
wrap/clamp arithmetic it clamps the value to the inclusive boundaries. -/
def clampValue (value minimum maximum : Int) : Int :=
  max minimum (min value maximum)

/-- Modelled from the spec: `wrap` is implemented in
`helpers/utilityHelpers.ts`, which is not among the provided sources; per the
spinner documentation the value "wraps around its boundaries": below the
minimum it wraps to the maximum, above the maximum to the minimum. -/
def wrapValue (value minimum maximum : Int) : Int :=
  if value < minimum then maximum
  else if value > maximum then minimum
  else value

/-- Embedding of `SpinnerComponent.performWrapMode` (`spinner.ts` lines
97-107): wrap or clamp into `[minimum, maximum - 1]` (the maximum is
exclusive). -/
def performWrapMode (mode : WrapMode) (minimum maximum value : Int) : Int :=
  match mode with
  | .wrap => wrapValue value minimum (maximum - 1)
  | .clamp => clampValue value minimum (maximum - 1)

/-- Embedding of `SpinnerComponent.set` (`spinner.ts` lines 72-91) on the
value state; the widget refresh is display-only and omitted.  A degenerate
range (`minimum >= maximum`) is logged and ignored; a repeated value on an
active spinner returns early; otherwise the value passes through
`performWrapMode` and the spinner becomes active. -/
def spinnerSet (mode : WrapMode) (minimum maximum : Int) (s : SpinnerState)
    (value : Int) : SpinnerState :=
  if minimum ≥ maximum then s
  else if value = s.value ∧ s.isActive then s
  else { value := performWrapMode mode minimum maximum value, isActive := true }

/-- A concrete car entity used to evaluate the theorems on explicit inputs. -/
def carExample : Car :=
  { id := 7
    ride := 2
    rideObject := 4
    vehicleObject := 1
    numSeats := 9
    mass := 120
    poweredAcceleration := 30
    poweredMaxSpeed := 40
    trackProgress := 15
    x := 100
    y := 200
    z := 14
    colourBody := 3
    colourTrim := 5
    colourTertiary := 6
    status := VehicleStatus.travelling }

/-- A concrete ride vehicle wrapping `carExample`. -/
def vehicleExample : RideVehicle :=
  { _id := 7, car := carExample }

/-- A concrete one-vehicle train. -/
def trainExample : RideTrain :=
  { vehicles := [vehicleExample] }

end RVE

namespace RVE

/-- C1: For every replacement of a selection-backed list, (a) if the new list
is empty the selection becomes `none`; (b) if the previously selected index is
less than the new list's length, the selection keeps the same index, with the
entity refreshed to the new list's item at that index; (c) otherwise the
selection becomes index 0 with the new list's head. -/
theorem updateSelectionOrNull_spec {α : Type} (previous : Option (α × Nat)) (items : List α) :
    (items.length = 0 → updateSelectionOrNull previous items = none)
    ∧ (∀ e i, previous = some (e, i) → i < items.length →
        ∃ x, items.get? i = some x ∧ updateSelectionOrNull previous items = some (x, i))
    ∧ (0 < items.length → (∀ e i, previous = some (e, i) → ¬ i < items.length) →
        ∃ x, items.get? 0 = some x ∧ updateSelectionOrNull previous items = some (x, 0)) := by
  refine ⟨?_, ?_, ?_⟩
  · intro h
    simp [updateSelectionOrNull, h]
  · intro e i hp hi
    subst hp
    have hpos : 0 < items.length := by omega
    refine ⟨items.get ⟨i, hi⟩, List.get?_eq_get hi, ?_⟩
    simp [updateSelectionOrNull, hpos, hi, List.get?_eq_get hi]
  · intro hpos hbad
    have h0 : 0 < items.length := hpos
    refine ⟨items.get ⟨0, h0⟩, List.get?_eq_get h0, ?_⟩
    match hprev : previous with
    | none =>
        simp [updateSelectionOrNull, hpos, List.get?_eq_get h0]
    | some (e, i) =>
        have hni : ¬ i < items.length := hbad e i rfl
        simp [updateSelectionOrNull, hpos, hni, List.get?_eq_get h0]

/-- Witness for C1: instantiates all three branches of
`updateSelectionOrNull_spec` on concrete lists. -/
theorem updateSelectionOrNull_spec_witness :
    (updateSelectionOrNull (α := Nat) (some (9, 1)) [] = none)
    ∧ (∃ x, [4, 5, 6].get? 1 = some x
        ∧ updateSelectionOrNull (some (9, 1)) [4, 5, 6] = some (x, 1))
    ∧ (∃ x, [4, 5].get? 0 = some x
        ∧ updateSelectionOrNull (some (9, 7)) [4, 5] = some (x, 0)) := by
  refine ⟨?_, ?_, ?_⟩
  · exact (updateSelectionOrNull_spec (some (9, 1)) []).1 rfl
  · exact (updateSelectionOrNull_spec (some (9, 1)) [4, 5, 6]).2.1 9 1 rfl (by decide)
  · exact (updateSelectionOrNull_spec (some (9, 7)) [4, 5]).2.2 (by decide)
      (by intro e i h; cases h; decide)

/-- C2: For every `_modifyVehicle(action, value)` call with a vehicle
selected: with the synchronize flag off, the action is invoked exactly once,
on the single span `[[selectedVehicle.id, 1]]`; with the flag on, it is
invoked exactly once, on the target set computed by the target resolver for
the current copy-target mode and selection. -/
theorem modifyVehicle_targets {T : Type} (getTargets : GetTargetsFn) (s : VMState)
    (value : T) (v : RideVehicle × Nat) (hv : s.selectedVehicle = some v) :
    (s.synchronizeTargets = false →
      (modifyVehicle getTargets s value).2.1 = [([(v.1._id, 1)], value)])
    ∧ (s.synchronizeTargets = true →
      (modifyVehicle getTargets s value).2.1 = [(copyTargets getTargets s, value)]) := by
  constructor
  · intro hsync
    simp [modifyVehicle, hv, hsync]
  · intro hsync
    simp [modifyVehicle, hv, hsync]

/-- Witness for C2: both synchronize modes evaluated on concrete states. -/
theorem modifyVehicle_targets_witness :
    (RVE.modifyVehicle (T := Nat) (fun _ _ _ _ => [(3, 2)])
      { initVMState with
        selectedVehicle := some (⟨7, carExample⟩, 0) } 5).2.1 = [([(7, 1)], 5)]
    ∧ (RVE.modifyVehicle (T := Nat) (fun _ _ _ _ => [(3, 2)])
      { initVMState with
        selectedVehicle := some (⟨7, carExample⟩, 0)
        synchronizeTargets := true } 5).2.1 = [([(3, 2)], 5)] := by
  constructor
  · exact (modifyVehicle_targets (fun _ _ _ _ => [(3, 2)])
      { initVMState with selectedVehicle := some (⟨7, carExample⟩, 0) }
      5 (⟨7, carExample⟩, 0) rfl).1 rfl
  · exact (modifyVehicle_targets (fun _ _ _ _ => [(3, 2)])
      { initVMState with
        selectedVehicle := some (⟨7, carExample⟩, 0)
        synchronizeTargets := true }
      5 (⟨7, carExample⟩, 0) rfl).2 rfl

/-- C3: every `_modifyVehicle(action, value)` call with no selected vehicle
invokes the action zero times, leaves the view-model state unchanged, and
only emits the debug-log line (the `true` flag); nothing else happens. -/
theorem modifyVehicle_noSelection {T : Type} (getTargets : GetTargetsFn)
    (s : VMState) (value : T) (h : s.selectedVehicle = none) :
    modifyVehicle getTargets s value = (s, [], true) := by
  simp [modifyVehicle, h]

/-- Witness for C3: the freshly constructed view model has no selection, and
modifying it is a logged no-op. -/
theorem modifyVehicle_noSelection_witness :
    RVE.modifyVehicle (T := Nat) (fun _ _ _ _ => []) initVMState 3
      = (initVMState, [], true) :=
  modifyVehicle_noSelection (fun _ _ _ _ => []) initVMState 3 rfl

/-- C5: `_setFilter` changes only the bits of the given filter — each bit of
the result is `toggle` on the filter's bits and the prior mask's bit
elsewhere; toggling is idempotent; and for two distinct filter bits `2 ^ i`
and `2 ^ j`, enabling both in either order yields the same mask with both
set, and disabling the first afterwards leaves the second set.  Masks are
below `2 ^ 32` because JavaScript bitwise operators work on 32-bit values. -/
theorem setFilter_spec (mask filter : Nat) (toggle : Bool)
    (hm : mask < 2 ^ 32) (hf : filter < 2 ^ 32) :
    (∀ i, (setFilterMask mask filter toggle).testBit i
        = if filter.testBit i then toggle else mask.testBit i)
    ∧ setFilterMask (setFilterMask mask filter toggle) filter toggle
        = setFilterMask mask filter toggle
    ∧ (∀ i j, i < 32 → j < 32 → i ≠ j →
        setFilterMask (setFilterMask mask (2 ^ i) true) (2 ^ j) true
          = setFilterMask (setFilterMask mask (2 ^ j) true) (2 ^ i) true
        ∧ (setFilterMask (setFilterMask mask (2 ^ i) true) (2 ^ j) true).testBit i = true
        ∧ (setFilterMask (setFilterMask mask (2 ^ i) true) (2 ^ j) true).testBit j = true
        ∧ (setFilterMask (setFilterMask (setFilterMask mask (2 ^ i) true) (2 ^ j) true)
            (2 ^ i) false).testBit j = true) := by
  refine ⟨?_, ?_, ?_⟩
  · intro i
    by_cases hi : i < 32
    · have hM : (jsNotMask).testBit i = true := by
        rw [jsNotMask, Nat.testBit_two_pow_sub_one]
        simp [hi]
      cases toggle <;>
        simp [setFilterMask, Nat.testBit_lor, Nat.testBit_land, Nat.testBit_xor, hM] <;>
        cases hfi : filter.testBit i <;> simp
    · have hle : (2 : Nat) ^ 32 ≤ 2 ^ i := Nat.pow_le_pow_right (by norm_num) (by omega)
      have hmi : mask.testBit i = false :=
        Nat.testBit_eq_false_of_lt (lt_of_lt_of_le hm hle)
      have hfi : filter.testBit i = false :=
        Nat.testBit_eq_false_of_lt (lt_of_lt_of_le hf hle)
      cases toggle <;>
        simp [setFilterMask, Nat.testBit_lor, Nat.testBit_land, Nat.testBit_xor, hmi, hfi]
  · cases toggle <;>
      · apply Nat.eq_of_testBit_eq
        intro i
        simp only [setFilterMask, if_true, if_false, Nat.testBit_lor, Nat.testBit_land,
          Nat.testBit_xor]
        cases mask.testBit i <;> cases filter.testBit i <;>
          cases (jsNotMask).testBit i <;> simp
  · intro i j hi hj hij
    have hji : (2 ^ i : Nat).testBit j = false := Nat.testBit_two_pow_of_ne hij
    have hjj : (2 ^ j : Nat).testBit j = true := by simp
    have hii : (2 ^ i : Nat).testBit i = true := by simp
    have hMj : (jsNotMask).testBit j = true := by
      rw [jsNotMask, Nat.testBit_two_pow_sub_one]
      simp [hj]
    refine ⟨?_, ?_, ?_, ?_⟩
    · apply Nat.eq_of_testBit_eq
      intro k
      simp only [setFilterMask, if_true, Nat.testBit_lor]
      cases mask.testBit k <;> cases (2 ^ i : Nat).testBit k <;>
        cases (2 ^ j : Nat).testBit k <;> simp
    · simp [setFilterMask, Nat.testBit_lor, hii]
    · simp [setFilterMask, Nat.testBit_lor, hjj]
    · simp [setFilterMask, Nat.testBit_lor, Nat.testBit_land, Nat.testBit_xor,
        hji, hjj, hMj]

/-- Helper: one `_open` or `_close` call preserves the correspondence between
the handle fields and the live subscriptions of the host registry. -/
theorem subInvariant_applyWindowOp (s : SubscriptionState) (e : SubscriptionEnv)
    (op : WindowOp) (h : SubInvariant s e) :
    SubInvariant (applyWindowOp (s, e) op).1 (applyWindowOp (s, e) op).2 := by
  obtain ⟨h1, h2⟩ := h
  cases op
  · cases hs : s.onPlayerAction <;> cases ht : s.onGameTick <;>
      simp_all [applyWindowOp, openSubscriptions, subscribeAction, subscribeTick,
        SubInvariant]
  · cases hs : s.onPlayerAction <;> cases ht : s.onGameTick <;>
      simp_all [applyWindowOp, closeSubscriptions, disposeAction, disposeTick,
        SubInvariant]

/-- Helper: the handle/registry correspondence holds after any sequence of
`_open`/`_close` calls from the initial state. -/
theorem runWindowOps_invariant (ops : List WindowOp) :
    SubInvariant (runWindowOps ops).1 (runWindowOps ops).2 := by
  have main : ∀ (l : List WindowOp) (p : SubscriptionState × SubscriptionEnv),
      SubInvariant p.1 p.2 →
      SubInvariant (l.foldl applyWindowOp p).1 (l.foldl applyWindowOp p).2 := by
    intro l
    induction l with
    | nil => intro p h; simpa using h
    | cons op rest ih =>
      intro p h
      simp only [List.foldl_cons]
      exact ih _ (subInvariant_applyWindowOp p.1 p.2 op h)
  exact main ops _ ⟨rfl, rfl⟩

/-- C6: for every sequence of `_open`/`_close` calls, at most one
action-executed and at most one game-tick subscription are live; a second
`_open` without an intervening `_close` changes nothing (no
double-subscribe); and `_close` clears both handle fields and leaves no live
subscription behind. -/
theorem subscriptions_lifecycle (ops : List WindowOp) :
    ((runWindowOps ops).2.liveAction.length ≤ 1
      ∧ (runWindowOps ops).2.liveTick.length ≤ 1)
    ∧ applyWindowOp (applyWindowOp (runWindowOps ops) WindowOp.openWin) WindowOp.openWin
        = applyWindowOp (runWindowOps ops) WindowOp.openWin
    ∧ ((closeSubscriptions (runWindowOps ops).1 (runWindowOps ops).2).1
        = ⟨none, none⟩
      ∧ (closeSubscriptions (runWindowOps ops).1 (runWindowOps ops).2).2.liveAction = []
      ∧ (closeSubscriptions (runWindowOps ops).1 (runWindowOps ops).2).2.liveTick = []) := by
  have main : ∀ (s : SubscriptionState) (e : SubscriptionEnv), SubInvariant s e →
      ((e.liveAction.length ≤ 1 ∧ e.liveTick.length ≤ 1)
      ∧ applyWindowOp (applyWindowOp (s, e) WindowOp.openWin) WindowOp.openWin
          = applyWindowOp (s, e) WindowOp.openWin
      ∧ ((closeSubscriptions s e).1 = ⟨none, none⟩
        ∧ (closeSubscriptions s e).2.liveAction = []
        ∧ (closeSubscriptions s e).2.liveTick = [])) := by
    intro s e h
    obtain ⟨h1, h2⟩ := h
    refine ⟨⟨?_, ?_⟩, ?_, rfl, ?_, ?_⟩
    · cases hs : s.onPlayerAction <;> simp_all
    · cases ht : s.onGameTick <;> simp_all
    · cases hs : s.onPlayerAction <;> cases ht : s.onGameTick <;>
        simp [applyWindowOp, openSubscriptions, subscribeAction, subscribeTick, hs, ht]
    · cases hs : s.onPlayerAction <;> cases ht : s.onGameTick <;>
        simp_all [closeSubscriptions, disposeAction, disposeTick]
    · cases hs : s.onPlayerAction <;> cases ht : s.onGameTick <;>
        simp_all [closeSubscriptions, disposeAction, disposeTick]
  exact main (runWindowOps ops).1 (runWindowOps ops).2 (runWindowOps_invariant ops)

/-- Helper: `_updateDynamicDataFromCar` never writes any of the
identity/appearance fields. -/
theorem updateDynamicDataFromCar_idFields (distance : DistanceFn) (s : VMState)
    (car : Car) (idx : Nat) :
    idFieldsEq (updateDynamicDataFromCar distance s car idx) s := by
  rcases hT : s.selectedTrain with _ | t
  · simp [updateDynamicDataFromCar, idFieldsEq, hT]
  · rcases hH : t.1.vehicles.head? with _ | hv <;>
      simp [updateDynamicDataFromCar, idFieldsEq, hT, hH]

/-- Helper: `_updateVehicleInfo` pulls the identity/appearance fields from the
vehicle's car. -/
theorem updateVehicleInfo_pulls (distance : DistanceFn) (s : VMState)
    (v : RideVehicle) (i : Nat) :
    (updateVehicleInfo distance s v i).seats = v.car.numSeats
    ∧ (updateVehicleInfo distance s v i).poweredAcceleration = v.car.poweredAcceleration
    ∧ (updateVehicleInfo distance s v i).poweredMaxSpeed = v.car.poweredMaxSpeed
    ∧ (updateVehicleInfo distance s v i).primaryColour = v.car.colourBody
    ∧ (updateVehicleInfo distance s v i).secondaryColour = v.car.colourTrim
    ∧ (updateVehicleInfo distance s v i).tertiaryColour = v.car.colourTertiary := by
  have h := updateDynamicDataFromCar_idFields distance
    { s with
      type := (s.rideTypes.findIdx? (fun t => t._id == v.car.rideObject)).bind
        (fun j => (s.rideTypes.get? j).map (fun t => (t, j)))
      seats := v.car.numSeats
      poweredAcceleration := v.car.poweredAcceleration
      poweredMaxSpeed := v.car.poweredMaxSpeed
      primaryColour := v.car.colourBody
      secondaryColour := v.car.colourTrim
      tertiaryColour := v.car.colourTertiary } v.car i
  obtain ⟨h1, h2, h3, h4, h5, h6, h7⟩ := h
  exact ⟨h2, h3, h4, h5, h6, h7⟩

/-- C4 (amended): the game-tick handler never overwrites the
identity/appearance observable fields (type, seats, powered acceleration,
powered max speed, colours); those fields are re-pulled only on a vehicle
selection change, or on an external refresh-vehicle event targeting the
selected vehicle while the window is open.  Stated as: the tick handler
preserves them; a refresh event that is ignored (window closed, or the id
does not match the selection) preserves them; a selection change to null
preserves them; and a selection change to a vehicle while the window is open
re-pulls them from that vehicle's car. -/
theorem identityFields_pull_sites (distance : DistanceFn) :
    (∀ s : VMState, idFieldsEq (onGameTickExecuted distance s) s)
    ∧ (∀ (s : VMState) (id : Nat),
        (s.isOpen = false ∨ ∀ v, s.selectedVehicle = some v → ¬ v.1._id = id) →
        idFieldsEq (onRefreshVehicle distance s id) s)
    ∧ (∀ s : VMState, idFieldsEq (selectVehicle distance s none) s)
    ∧ (∀ (s : VMState) (v : RideVehicle) (i : Nat), s.isOpen = true →
        ((selectVehicle distance s (some (v, i))).seats = v.car.numSeats
        ∧ (selectVehicle distance s (some (v, i))).poweredAcceleration
            = v.car.poweredAcceleration
        ∧ (selectVehicle distance s (some (v, i))).poweredMaxSpeed
            = v.car.poweredMaxSpeed
        ∧ (selectVehicle distance s (some (v, i))).primaryColour = v.car.colourBody
        ∧ (selectVehicle distance s (some (v, i))).secondaryColour = v.car.colourTrim
        ∧ (selectVehicle distance s (some (v, i))).tertiaryColour
            = v.car.colourTertiary)) := by
  refine ⟨?_, ?_, ?_, ?_⟩
  · intro s
    rcases hV : s.selectedVehicle with _ | v
    · simp [onGameTickExecuted, hV, idFieldsEq]
    · simpa [onGameTickExecuted, hV] using
        updateDynamicDataFromCar_idFields distance s v.1.car v.2
  · intro s id h
    rcases hO : s.isOpen
    · simp [onRefreshVehicle, hO, idFieldsEq]
    · rcases hV : s.selectedVehicle with _ | v
      · simp [onRefreshVehicle, hO, hV, idFieldsEq]
      · have hne : ¬ v.1._id = id := by
          rcases h with h | h
          · rw [hO] at h
            exact absurd h (by simp)
          · exact h v hV
        simp [onRefreshVehicle, hO, hV, hne, idFieldsEq]
  · intro s
    simp [selectVehicle, idFieldsEq]
  · intro s v i hO
    have h := updateVehicleInfo_pulls distance
      { s with selectedVehicle := some (v, i) } v i
    simpa [selectVehicle, hO] using h

/-- Witness for C4 (amended): the four parts instantiated on concrete
states. -/
theorem identityFields_pull_sites_witness :
    idFieldsEq (onGameTickExecuted (fun _ _ => none) initVMState) initVMState
    ∧ idFieldsEq (onRefreshVehicle (fun _ _ => none) initVMState 0) initVMState
    ∧ idFieldsEq (selectVehicle (fun _ _ => none) initVMState none) initVMState
    ∧ (selectVehicle (fun _ _ => none) { initVMState with isOpen := true }
        (some (vehicleExample, 0))).seats = vehicleExample.car.numSeats := by
  have h := identityFields_pull_sites (fun _ _ => none)
  exact ⟨h.1 initVMState, h.2.1 initVMState 0 (Or.inl rfl), h.2.2.1 initVMState,
    (h.2.2.2 { initVMState with isOpen := true } vehicleExample 0 rfl).1⟩

/-- C4 counterexample: the claim's clause that the identity/appearance fields
"are re-pulled only on a vehicle selection change" fails on the code: the
`refreshVehicle` handler registered in the constructor re-pulls them for a
matching external refresh event while the window is open, with no selection
change.  Concretely, a refresh of entity 7 overwrites the seats observable
(5 becomes the car's 9) while the selection is untouched. -/
theorem identityFields_refresh_counterexample :
    (onRefreshVehicle (fun _ _ => none)
      { initVMState with
        isOpen := true
        selectedVehicle := some (vehicleExample, 0)
        seats := 5 } 7).seats = 9
    ∧ (onRefreshVehicle (fun _ _ => none)
      { initVMState with
        isOpen := true
        selectedVehicle := some (vehicleExample, 0)
        seats := 5 } 7).selectedVehicle = some (vehicleExample, 0)
    ∧ (5 : Nat) ≠ 9 := by
  exact ⟨rfl, rfl, by decide⟩

/-- C8: whenever the spacing to the preceding vehicle cannot be determined —
the selected car is the first of its train, the preceding vehicle does not
exist, or its position cannot be resolved — the dynamic-data pull stores
`none` in the spacing observable, regardless of any previously stored number
(the prior state `s` is arbitrary, so no stale value survives and zero is
never substituted), and the UI formatter renders it as the non-numeric
label. -/
theorem spacing_unavailable (distance : DistanceFn) (s : VMState)
    (train : RideTrain) (ti : Nat) (car : Car) (index : Nat)
    (ht : s.selectedTrain = some (train, ti))
    (hne : train.vehicles ≠ [])
    (h : index = 0 ∨ ∀ prev, train.vehicles.get? (index - 1) = some prev →
        distance prev car = none) :
    (updateDynamicDataFromCar distance s car index).spacing = none
    ∧ spacingFormat (updateDynamicDataFromCar distance s car index).spacing
        = "Too far away" := by
  obtain ⟨hv, hH⟩ : ∃ hv, train.vehicles.head? = some hv := by
    cases hvs : train.vehicles with
    | nil => exact absurd hvs hne
    | cons a l => exact ⟨a, rfl⟩
  have hsp : getSpacingToPrecedingVehicle distance train car index = none := by
    unfold getSpacingToPrecedingVehicle
    by_cases h0 : index = 0
    · simp [h0]
    · rcases hg : train.vehicles.get? (index - 1) with _ | prev
      · simp [h0, hg]
      · rcases h with h | hall
        · exact absurd h h0
        · simp [h0, hg, hall prev hg]
  refine ⟨?_, ?_⟩
  · simp [updateDynamicDataFromCar, ht, hH, hsp]
  · simp [updateDynamicDataFromCar, ht, hH, hsp, spacingFormat]

/-- Witness for C8: a one-vehicle train with the selected car at index 0 (no
preceding vehicle) and an unresolvable position function. -/
theorem spacing_unavailable_witness :
    (updateDynamicDataFromCar (fun _ _ => none)
      { initVMState with selectedTrain := some (trainExample, 0) }
      carExample 0).spacing = none
    ∧ spacingFormat ((updateDynamicDataFromCar (fun _ _ => none)
      { initVMState with selectedTrain := some (trainExample, 0) }
      carExample 0).spacing) = "Too far away" :=
  spacing_unavailable (fun _ _ => none)
    { initVMState with selectedTrain := some (trainExample, 0) }
    trainExample 0 carExample 0 rfl (by simp [trainExample]) (Or.inl rfl)

/-- C9 (amended): when the vehicle selection becomes null, the mirrored
observable fields keep their last pulled values — the code has no reset
branch (editing is disabled in the UI instead) — and no non-pull transition
(filter toggle, modify dispatch, window close) overwrites them; fields are
overwritten only by the mirror pulls and are never destroyed. -/
theorem mirrorFields_lifecycle (distance : DistanceFn) :
    (∀ s : VMState, mirrorFieldsEq (selectVehicle distance s none) s
      ∧ (selectVehicle distance s none).selectedVehicle = none)
    ∧ (∀ (s : VMState) (filter : Nat) (toggle : Bool),
        mirrorFieldsEq (setFilter s filter toggle) s)
    ∧ (∀ (T : Type) (getTargets : GetTargetsFn) (s : VMState) (value : T),
        (modifyVehicle getTargets s value).1 = s)
    ∧ (∀ s : VMState, mirrorFieldsEq (closeModel s) s) := by
  refine ⟨?_, ?_, ?_, ?_⟩
  · intro s
    exact ⟨by simp [selectVehicle, mirrorFieldsEq, idFieldsEq], rfl⟩
  · intro s filter toggle
    simp [setFilter, mirrorFieldsEq, idFieldsEq]
  · intro T getTargets s value
    rcases hV : s.selectedVehicle with _ | v
    · simp [modifyVehicle, hV]
    · by_cases hsync : s.synchronizeTargets <;> simp [modifyVehicle, hV, hsync]
  · intro s
    simp [closeModel, mirrorFieldsEq, idFieldsEq]

/-- C9 counterexample: the claim that on a null selection every mirrored
field "is reset to its default" fails on the code: the selection-change
subscription does nothing when the new value is null, so a previously pulled
seats value of 5 survives instead of returning to the default 0. -/
theorem mirrorFields_reset_counterexample :
    (selectVehicle (fun _ _ => none)
      { initVMState with
        isOpen := true
        selectedVehicle := some (vehicleExample, 0)
        seats := 5 } none).seats = 5
    ∧ initVMState.seats = 0
    ∧ (5 : Nat) ≠ 0 :=
  ⟨rfl, rfl, by decide⟩

/-- C7 (amended): the clipboard starts empty; a paste with no prior copy
invokes no paste handler and changes nothing; a copy click while a snapshot
is captured clears the clipboard (toggles copy off) rather than capturing a
new snapshot; a new snapshot is captured only from the unpressed state, and
then it wholly replaces the clipboard content with the copy callback's
result (never merging); the pressed state always mirrors whether a snapshot
exists, so at most one snapshot exists at any time. -/
theorem clipboard_lifecycle (α : Type) :
    (initWinState α).copiedVehicleSettings = none
    ∧ (∀ (s : WinState α) (hasHandler : Bool), s.copiedVehicleSettings = none →
        onClickPaste s hasHandler = (s, []))
    ∧ (∀ (s : WinState α) (handler : Option (Option α)), s.copyPressed = true →
        (onClickCopy s handler).copiedVehicleSettings = none
        ∧ (onClickCopy s handler).copyPressed = false)
    ∧ (∀ (s : WinState α) (result : Option α), s.copyPressed = false →
        (onClickCopy s (some result)).copiedVehicleSettings = result
        ∧ (onClickCopy s (some result)).copyPressed = result.isSome)
    ∧ (∀ (s : WinState α) (handler : Option (Option α)),
        s.copyPressed = s.copiedVehicleSettings.isSome →
        (onClickCopy s handler).copyPressed
          = (onClickCopy s handler).copiedVehicleSettings.isSome) := by
  refine ⟨rfl, ?_, ?_, ?_, ?_⟩
  · intro s hasHandler h
    simp [onClickPaste, h]
  · intro s handler h
    simp [onClickCopy, h]
  · intro s result h
    simp [onClickCopy, h]
  · intro s handler h
    by_cases hp : s.copyPressed
    · simp [onClickCopy, hp]
    · rcases handler with _ | result
      · have : s.copiedVehicleSettings.isSome = false := by
          rw [← h]
          simpa using hp
        simp [onClickCopy, hp, this]
      · simp [onClickCopy, hp]

/-- Witness for C7 (amended): the four guarded parts instantiated on
concrete clipboard states over `Nat` settings. -/
theorem clipboard_lifecycle_witness :
    (initWinState Nat).copiedVehicleSettings = none
    ∧ onClickPaste (initWinState Nat) true = (initWinState Nat, [])
    ∧ (onClickCopy
        { copiedVehicleSettings := some (1 : Nat), copyPressed := true,
          pasteDisabled := false } (some (some 2))).copiedVehicleSettings = none
    ∧ (onClickCopy (initWinState Nat) (some (some 2))).copiedVehicleSettings = some 2
    ∧ (onClickCopy (initWinState Nat) none).copyPressed
        = (onClickCopy (initWinState Nat) none).copiedVehicleSettings.isSome := by
  have h := clipboard_lifecycle Nat
  exact ⟨h.1, h.2.1 _ true rfl, (h.2.2.1 _ (some (some 2)) rfl).1,
    (h.2.2.2.1 _ (some 2) rfl).1, h.2.2.2.2 _ none rfl⟩

/-- C7 counterexample: the claim that "after one copy, a second copy replaces
the previously captured settings snapshot" fails on the code: clicking the
copy button while a snapshot is captured does not call `onCopyVehicle` at
all — it clears the clipboard.  With snapshot 1 captured and a copy callback
that would return snapshot 2, the clipboard afterwards holds nothing, not
snapshot 2. -/
theorem clipboard_second_copy_counterexample :
    (onClickCopy
      { copiedVehicleSettings := some (1 : Nat), copyPressed := true,
        pasteDisabled := false } (some (some 2))).copiedVehicleSettings = none
    ∧ ¬ (onClickCopy
      { copiedVehicleSettings := some (1 : Nat), copyPressed := true,
        pasteDisabled := false } (some (some 2))).copiedVehicleSettings = some 2 := by
  exact ⟨rfl, by decide⟩

/-- C10: `SpinnerComponent.set` never lets the stored value escape the
configured bounds: with a degenerate range (`minimum >= maximum`) the call is
a no-op; otherwise — assuming the value of an already-active spinner is in
range, which holds for every reachable state under fixed bounds — the stored
value after the call equals the wrap/clamp of the input for the configured
wrap mode and lies within `[minimum, maximum - 1]`, and the spinner is
active. -/
theorem spinnerSet_spec (mode : WrapMode) (minimum maximum : Int)
    (s : SpinnerState) (value : Int)
    (hinv : s.isActive = true → minimum ≤ s.value ∧ s.value ≤ maximum - 1) :
    (minimum ≥ maximum → spinnerSet mode minimum maximum s value = s)
    ∧ (minimum < maximum →
        ((spinnerSet mode minimum maximum s value).value
            = performWrapMode mode minimum maximum value
        ∧ minimum ≤ (spinnerSet mode minimum maximum s value).value
        ∧ (spinnerSet mode minimum maximum s value).value ≤ maximum - 1
        ∧ (spinnerSet mode minimum maximum s value).isActive = true)) := by
  constructor
  · intro h
    simp [spinnerSet, h]
  · intro hlt
    have hge : ¬ minimum ≥ maximum := by omega
    by_cases hearly : value = s.value ∧ s.isActive
    · obtain ⟨hv, ha⟩ := hearly
      obtain ⟨hl, hu⟩ := hinv ha
      subst hv
      have hpw : performWrapMode mode minimum maximum s.value = s.value := by
        cases mode
        · simp only [performWrapMode, wrapValue]
          have h1 : ¬ s.value < minimum := by omega
          have h2 : ¬ s.value > maximum - 1 := by omega
          simp [h1, h2]
        · simp only [performWrapMode, clampValue]
          rw [min_eq_left hu, max_eq_right hl]
      have hres : spinnerSet mode minimum maximum s s.value = s := by
        simp [spinnerSet, hge, ha]
      rw [hres, hpw]
      exact ⟨rfl, hl, hu, ha⟩
    · have hb : minimum ≤ performWrapMode mode minimum maximum value
          ∧ performWrapMode mode minimum maximum value ≤ maximum - 1 := by
        cases mode
        · simp only [performWrapMode, wrapValue]
          by_cases h1 : value < minimum
          · simp only [h1, if_true]
            omega
          · by_cases h2 : value > maximum - 1 <;> simp only [h1, h2, if_true, if_false] <;>
              omega
        · simp only [performWrapMode, clampValue]
          refine ⟨le_max_left _ _, max_le (by omega) (min_le_right _ _)⟩
      have hres : spinnerSet mode minimum maximum s value
          = { value := performWrapMode mode minimum maximum value, isActive := true } := by
        simp only [spinnerSet, hge, if_false]
        rw [if_neg hearly]
      rw [hres]
      exact ⟨rfl, hb.1, hb.2, rfl⟩

/-- Witness for C10: the degenerate-range no-op on an inactive spinner, and
an in-range wrap of an overshooting value on an active spinner. -/
theorem spinnerSet_spec_witness :
    (spinnerSet WrapMode.wrap 0 0 { value := 3, isActive := false } 5
      = { value := 3, isActive := false })
    ∧ ((spinnerSet WrapMode.wrap 0 10 { value := 3, isActive := true } 25).value
        = performWrapMode WrapMode.wrap 0 10 25
      ∧ 0 ≤ (spinnerSet WrapMode.wrap 0 10 { value := 3, isActive := true } 25).value
      ∧ (spinnerSet WrapMode.wrap 0 10 { value := 3, isActive := true } 25).value ≤ 10 - 1
      ∧ (spinnerSet WrapMode.wrap 0 10 { value := 3, isActive := true } 25).isActive
        = true) := by
  constructor
  · exact (spinnerSet_spec WrapMode.wrap 0 0 { value := 3, isActive := false } 5
      (by intro h; exact absurd h (by decide))).1 (by decide)
  · exact (spinnerSet_spec WrapMode.wrap 0 10 { value := 3, isActive := true } 25
      (by intro h; exact ⟨by decide, by decide⟩)).2 (by decide)

/-- Witness for C5: concrete instances of all three parts at mask 5 and
filters 3, `2 ^ 0` and `2 ^ 1`. -/
theorem setFilter_spec_witness :
    ((setFilterMask 5 3 false).testBit 0
      = if (3 : Nat).testBit 0 then false else (5 : Nat).testBit 0)
    ∧ setFilterMask (setFilterMask 5 3 false) 3 false = setFilterMask 5 3 false
    ∧ (setFilterMask (setFilterMask 5 (2 ^ 0) true) (2 ^ 1) true).testBit 1 = true := by
  have h := setFilter_spec 5 3 false (by norm_num) (by norm_num)
  exact ⟨h.1 0, h.2.1, (h.2.2 0 1 (by norm_num) (by norm_num) (by decide)).2.2.1⟩

end RVE
